import Mathlib

set_option maxRecDepth 4000

/-!
Verification of the SGR attribute-matrix printer in
crates/icy_engine/term/a.c. The program writes, for each of nine
attribute groups, a label line followed by eleven rows of escape-coded
cells for the SGR parameter values 0..108. Everything below is a direct
shallow embedding of that C source: each printf chunk becomes a Lean
string, and the two nested loops become structural recursions.
-/

namespace AnsiAttrTest

/-- Decimal digits of n padded on the left with spaces to width 3: the
behaviour of the C conversion %3d for the nonnegative arguments used
here (source line 11 and its eight clones). -/
def fmt3 (n : Nat) : String :=
  String.mk (List.replicate (3 - (Nat.repr n).length) ' ') ++ Nat.repr n

/-- One emitted cell. For the plain group (attribute code absent) the
source runs printf with format ESC [ %d m space %3d ESC [ m; for every
other group the format is ESC [ %d ; %d m space %3d ESC [ m with the
group's attribute code first. -/
def escCell (c : Option Nat) (n : Nat) : String :=
  match c with
  | none => "\x1b[" ++ Nat.repr n ++ "m " ++ fmt3 n ++ "\x1b[m"
  | some p => "\x1b[" ++ Nat.repr p ++ ";" ++ Nat.repr n ++ "m " ++ fmt3 n ++ "\x1b[m"

/-- The inner loop of every group, emitting cells: j runs from 0 while
j < 10, n is 10 * i + j, and the loop breaks as soon as n > 108. The
fuel argument counts the iterations that remain, 10 - j, so the j < 10
test of the source becomes fuel > 0. -/
def rowCellsFrom (c : Option Nat) (i : Nat) : Nat → Nat → List String
  | _, 0 => []
  | j, fuel + 1 =>
    if 10 * i + j > 108 then []
    else escCell c (10 * i + j) :: rowCellsFrom c i (j + 1) fuel

/-- The cells of row i of a group with attribute code c. -/
def rowCells (c : Option Nat) (i : Nat) : List String :=
  rowCellsFrom c i 0 10

/-- The same inner loop, recording the n values the source passes to
printf instead of the formatted cells. -/
def rowNsFrom (i : Nat) : Nat → Nat → List Nat
  | _, 0 => []
  | j, fuel + 1 =>
    if 10 * i + j > 108 then []
    else (10 * i + j) :: rowNsFrom i (j + 1) fuel

/-- The n values of row i (shared by all nine groups). -/
def rowNs (i : Nat) : List Nat :=
  rowNsFrom i 0 10

/-- The characters printed for row i of a group with attribute code c,
without the trailing newline. -/
def rowOut (c : Option Nat) (i : Nat) : String :=
  String.join (rowCells c i)

/-- An attribute group: the label printed before its matrix and the
optional SGR attribute code spliced into every cell. -/
structure Group where
  label : String
  attr : Option Nat
deriving DecidableEq

/-- The nine groups, in the order the source prints them (lines 6, 16,
24, 34, 44, 54, 64, 74 and 84 of a.c). The second Bold label is what
the source prints for the faint group, attribute code 2. -/
def groups : List Group :=
  [⟨"Plain:", none⟩,
   ⟨"Bold:", some 1⟩,
   ⟨"Bold:", some 2⟩,
   ⟨"Italic:", some 3⟩,
   ⟨"Blink:", some 5⟩,
   ⟨"Underline:", some 4⟩,
   ⟨"Crossed out :", some 9⟩,
   ⟨"Double underlined :", some 21⟩,
   ⟨"Conceal/hide :", some 8⟩]

/-- Everything one group prints: its label with a newline, then the
outer loop, i from 0 to 10, each row followed by one newline. -/
def groupOut (g : Group) : String :=
  g.label ++ "\n" ++ String.join ((List.range 11).map (fun i => rowOut g.attr i ++ "\n"))

/-- The whole standard-output stream of the program. -/
def progOut : String :=
  String.join (groups.map groupOut)

/-- The program as a function of its (empty) input: it writes progOut
and returns the exit status 0 of source line 94. -/
def run (_u : Unit) : String × Int :=
  (progOut, 0)

/-- The output split into its logical lines: for each group the label,
then the eleven rows, each of which the source terminates with one
newline. -/
def groupLines (g : Group) : List String :=
  g.label :: (List.range 11).map (fun i => rowOut g.attr i)

/-- All 108 logical lines of the output in order. -/
def progLines : List String :=
  groups.flatMap groupLines

/-- Modelled from the spec wording: n right-justified in a 3-character
field, appended to ESC [ code ; n m space and followed by ESC [ m. -/
def specPad3 (n : Nat) : String :=
  if (Nat.repr n).length < 3 then
    String.mk (List.replicate (3 - (Nat.repr n).length) ' ') ++ Nat.repr n
  else Nat.repr n

/-- The spec's cell pattern for the groups that carry an attribute
code p. -/
def specCellWith (p n : Nat) : String :=
  "\x1b[" ++ Nat.repr p ++ ";" ++ Nat.repr n ++ "m " ++ specPad3 n ++ "\x1b[m"

/-- The spec's cell pattern for the plain group: no code and no leading
semicolon. -/
def specCellPlain (n : Nat) : String :=
  "\x1b[" ++ Nat.repr n ++ "m " ++ specPad3 n ++ "\x1b[m"

/-- C1: for every one of the nine attribute groups, the n values emitted
across the group's rows are exactly the integers 0..108 inclusive, in
strictly increasing order, with no gaps and no repeats; accordingly the
group's cells are the cells for n = 0, 1, ..., 108 in that order. -/
theorem c1_n_values_exact_range : ∀ g ∈ groups,
    (List.range 11).flatMap rowNs = List.range 109 ∧
    (((List.range 11).flatMap rowNs).zip ((List.range 11).flatMap rowNs).tail).all
      (fun p => p.1 < p.2) = true ∧
    (List.range 11).flatMap (fun i => rowCells g.attr i) =
      (List.range 109).map (escCell g.attr) := by
  decide

/-- Witness for C1 at the first group. -/
theorem c1_n_values_exact_range_witness :
    (⟨"Plain:", none⟩ : Group) ∈ groups ∧
    (List.range 11).flatMap rowNs = List.range 109 := by
  refine ⟨by decide, ?_⟩
  exact (c1_n_values_exact_range ⟨"Plain:", none⟩ (by decide)).1

/-- C2: every group prints 11 rows; each of the first 10 rows holds
exactly 10 cells and the last row holds exactly 9 cells, the values
100..108, because the break on n > 108 is tested before each cell. -/
theorem c2_row_shape : ∀ g ∈ groups,
    ((List.range 11).map (fun i => rowCells g.attr i)).length = 11 ∧
    (∀ i < 10, (rowCells g.attr i).length = 10) ∧
    (rowCells g.attr 10).length = 9 ∧
    rowCells g.attr 10 = (List.range 9).map (fun j => escCell g.attr (100 + j)) := by
  decide

/-- Witness for C2 at the last group. -/
theorem c2_row_shape_witness :
    (⟨"Conceal/hide :", some 8⟩ : Group) ∈ groups ∧
    (rowCells (some 8) 10).length = 9 := by
  refine ⟨by decide, ?_⟩
  exact (c2_row_shape ⟨"Conceal/hide :", some 8⟩ (by decide)).2.2.1

/-- C3: every group after Plain carries an attribute code, the codes in
group order are 1, 2, 3, 5, 4, 9, 21, 8, and for every n in 0..108 the
emitted cell is byte-exactly ESC [ code ; n m space n-right-justified-
in-width-3 ESC [ m. -/
theorem c3_coded_cells :
    groups.map Group.attr =
      [none, some 1, some 2, some 3, some 5, some 4, some 9, some 21, some 8] ∧
    ∀ g ∈ groups.tail, g.attr.isSome = true ∧
      ∀ n < 109, escCell g.attr n = specCellWith (g.attr.getD 0) n := by
  decide

/-- Witness for C3 at the Bold group and n = 42. -/
theorem c3_coded_cells_witness :
    (⟨"Bold:", some 1⟩ : Group) ∈ groups.tail ∧
    escCell (some 1) 42 = specCellWith 1 42 := by
  refine ⟨by decide, ?_⟩
  exact ((c3_coded_cells.2 ⟨"Bold:", some 1⟩ (by decide)).2 42 (by decide))

/-- C4: every Plain cell is byte-exactly ESC [ n m space
n-right-justified-in-width-3 ESC [ m with no code and no leading
semicolon; the first Plain cell is ESC [ 0 m, three spaces, the digit 0
and ESC [ m; and the final cell of every group renders 108 with no
padding spaces. -/
theorem c4_plain_cells :
    (∀ n < 109, escCell none n = specCellPlain n) ∧
    escCell none 0 = "\x1b[0m   0\x1b[m" ∧
    fmt3 108 = "108" ∧
    (∀ g ∈ groups, (rowCells g.attr 10).getLast? = some (escCell g.attr 108)) := by
  decide

/-- Witness for C4 at n = 7 and the Plain group. -/
theorem c4_plain_cells_witness :
    escCell none 7 = specCellPlain 7 ∧
    (rowCells (none : Option Nat) 10).getLast? = some (escCell none 108) := by
  refine ⟨c4_plain_cells.1 7 (by decide), ?_⟩
  exact c4_plain_cells.2.2.2 ⟨"Plain:", none⟩ (by decide)

/-- C5: exactly nine label lines, with the exact texts in the fixed
order (the faint group repeats the Bold text, and the last three labels
carry a space before the colon); in the 108 output lines the label of
group k stands at index 12 k, immediately followed by that group's
eleven rows. -/
theorem c5_labels :
    groups.map Group.label =
      ["Plain:", "Bold:", "Bold:", "Italic:", "Blink:", "Underline:",
       "Crossed out :", "Double underlined :", "Conceal/hide :"] ∧
    progLines.length = 108 ∧
    ∀ k < 9, progLines.get? (12 * k) = (groups.get? k).map Group.label ∧
      ∀ i < 11, progLines.get? (12 * k + 1 + i) =
        (groups.get? k).map (fun g => rowOut g.attr i) := by
  decide

/-- Witness for C5 at the seventh group. -/
theorem c5_labels_witness :
    progLines.get? 72 = (groups.get? 6).map Group.label := by
  exact (c5_labels.2.2 6 (by decide)).1


/-- Character-level view of one group's output: the label and the
eleven rows, each logical line followed by exactly one newline
character. -/
theorem data_groupOut (g : Group) :
    (groupOut g).data = ((groupLines g).map (fun l => l.data ++ ['\n'])).flatten := by
  have hnl : "\n".data = ['\n'] := rfl
  simp [groupOut, groupLines, String.data_append, List.map_map, Function.comp_def,
    hnl, List.append_assoc]

/-- Character-level view of the output of any list of groups. -/
theorem data_joinGroups (gs : List Group) :
    (String.join (gs.map groupOut)).data =
      ((gs.flatMap groupLines).map (fun l => l.data ++ ['\n'])).flatten := by
  induction gs with
  | nil => rfl
  | cons g gs ih =>
    calc (String.join ((g :: gs).map groupOut)).data
        = ((groupOut g :: gs.map groupOut).map String.data).flatten := String.data_join _
      _ = (groupOut g).data ++ ((gs.map groupOut).map String.data).flatten := by simp
      _ = (groupOut g).data ++ (String.join (gs.map groupOut)).data := by
            rw [String.data_join]
      _ = ((groupLines g).map (fun l => l.data ++ ['\n'])).flatten ++
            ((gs.flatMap groupLines).map (fun l => l.data ++ ['\n'])).flatten := by
            rw [data_groupOut, ih]
      _ = (((g :: gs).flatMap groupLines).map (fun l => l.data ++ ['\n'])).flatten := by
            simp

/-- Character-level view of the whole output stream: the 108 logical
lines, each followed by exactly one newline character. -/
theorem data_progOut :
    progOut.data = (progLines.map (fun l => l.data ++ ['\n'])).flatten :=
  data_joinGroups groups

/-- C6: no logical line contains a newline of its own, and every
group's stream is exactly its twelve logical lines (label and eleven
rows, the short final row included) each followed by one newline. -/
theorem c6_one_newline_per_row :
    (∀ l ∈ progLines, '\n' ∉ l.data) ∧
    (∀ g ∈ groups, (groupOut g).data =
      ((groupLines g).map (fun l => l.data ++ ['\n'])).flatten) := by
  exact ⟨by decide, fun g _ => data_groupOut g⟩

/-- Witness for C6 at the first line and the first group. -/
theorem c6_one_newline_per_row_witness :
    ("Plain:" ∈ progLines) ∧ ('\n' ∉ "Plain:".data) := by
  refine ⟨by decide, ?_⟩
  exact c6_one_newline_per_row.1 "Plain:" (by decide)

/-- C7: the program is a pure function of no input, so any two runs
produce identical output streams and exit statuses. -/
theorem c7_deterministic (u v : Unit) : run u = run v := rfl

/-- C8: the program always completes: running it yields the whole
finite output, 13809 characters, together with the exit status; and
every inner loop is bounded, no row ever getting past ten iterations. -/
theorem c8_terminates :
    run () = (progOut, 0) ∧
    progOut.length = 13809 ∧
    ∀ g ∈ groups, ∀ i < 11, (rowCells g.attr i).length ≤ 10 := by
  refine ⟨rfl, ?_, by decide⟩
  show progOut.data.length = 13809
  rw [data_progOut, List.length_flatten, List.map_map]
  decide

/-- Witness for C8 at the Italic group, row 3. -/
theorem c8_terminates_witness :
    (⟨"Italic:", some 3⟩ : Group) ∈ groups ∧ (rowCells (some 3) 3).length ≤ 10 := by
  refine ⟨by decide, ?_⟩
  exact c8_terminates.2.2 ⟨"Italic:", some 3⟩ (by decide) 3 (by decide)

/-- C9: the model of the program takes no input at all, and every run
returns the same pair, with exit status 0 and no other outcome. -/
theorem c9_exit_zero :
    (∀ u : Unit, run u = run ()) ∧ (run ()).2 = 0 :=
  ⟨fun u => by cases u; rfl, rfl⟩

/-- C10: the output consists of exactly 108 newline-terminated lines,
9 labels plus 9 times 11 rows; the stream holds exactly 108 newline
characters and its final character is a newline. -/
theorem c10_line_structure :
    progLines.length = 108 ∧
    progLines.length = 9 + 9 * 11 ∧
    progOut.data.count '\n' = 108 ∧
    progOut.data.getLast? = some '\n' := by
  refine ⟨by decide, by decide, ?_, ?_⟩
  · rw [data_progOut, List.count_flatten, List.map_map]
    decide
  · rw [data_progOut]
    have hsplit : progLines = progLines.dropLast ++ [rowOut (some 8) 10] := by decide
    rw [hsplit, List.map_append, List.flatten_append]
    rw [List.getLast?_append_of_ne_nil]
    · simp [List.flatten]
    · simp [List.flatten]

end AnsiAttrTest
